import Mathlib

/-!
Verification of the OCR deployment notebook
(`DSPy DAIS presentation/03_Deploy Tesseract Model.py`).

The notebook defines `OCRModel`, an `mlflow.pyfunc.PythonModel` whose
`predict` method (lines 68-88) reads the first row of the `image` column of
a pandas DataFrame, decodes the bytes with PIL, re-encodes any non-JPEG
image as JPEG, runs pytesseract OCR on the result and returns
`json.dumps({'text': ...})`, with every exception caught and returned as
`json.dumps({'error': str(e)})`.  The external libraries (pandas row
access aside, which is modelled directly) are represented by an
environment of oracle functions `Env`; the control flow of `predict`
itself is translated statement by statement.
-/

namespace OCRDeploy

/-- A Python `bytes` value: a sequence of byte values. -/
abbrev Bytes := List Nat

/-- The Python exceptions that can arise on the predict path: `KeyError`
from `model_input['image']` on a frame without that column, `IndexError`
from `.iloc[0]` on an empty column, and arbitrary library exceptions
(PIL decode or save failures, pytesseract failures) carrying a message. -/
inductive PyErr where
  | keyError (key : String)
  | indexError
  | exn (msg : String)
deriving DecidableEq

/-- Python `str(e)` for a caught exception.  (Python renders a `KeyError`
as its key in quotes; the quoting is inessential and dropped here.) -/
def PyErr.str : PyErr → String
  | .keyError key => key
  | .indexError => "single positional indexer is out-of-bounds"
  | .exn msg => msg

/-- A PIL image as the notebook observes it: its `format` attribute
(`None` for images produced in memory by `convert`, the codec name for
images produced by `Image.open`) and an opaque pixel content. -/
structure Image where
  format : Option String
  content : Nat
deriving DecidableEq

/-- The external libraries used by `predict`, as oracles:
`Image.open(io.BytesIO(b))` (fallible decode), `image.convert('RGB')`
(total), `image.save(output, format='JPEG')` followed by `getvalue()`
(fallible re-encode to bytes), and `pytesseract.image_to_string`
(fallible OCR). -/
structure Env where
  image_open : Bytes → Except PyErr Image
  convert_rgb : Image → Image
  save_jpeg : Image → Except PyErr Bytes
  image_to_string : Image → Except PyErr String

/-- A pandas DataFrame as `predict` uses it: an association of column
names to columns, each column a list of row values. -/
abbrev DataFrame := List (String × List Bytes)

/-- Python `df[c]`: column selection, raising `KeyError` when absent. -/
def df_getcol (df : DataFrame) (c : String) : Except PyErr (List Bytes) :=
  match df.lookup c with
  | some col => .ok col
  | none => .error (.keyError c)

/-- Python `series.iloc[0]`: the first row value, raising `IndexError`
when the column is empty. -/
def iloc0 : List Bytes → Except PyErr Bytes
  | [] => .error .indexError
  | b :: _ => .ok b

/-- Line 71: `image_bytes = model_input['image'].iloc[0]`. -/
def first_image (df : DataFrame) : Except PyErr Bytes :=
  match df_getcol df "image" with
  | .error e => .error e
  | .ok col => iloc0 col

/-- Lines 73-82: open the image; when its format is not `'JPEG'`,
convert it to RGB, save it as JPEG into a fresh buffer and reopen the
resulting bytes; JPEG images pass through untouched. -/
def final_image (env : Env) (b : Bytes) : Except PyErr Image :=
  match env.image_open b with
  | .error e => .error e
  | .ok image =>
    if image.format ≠ some "JPEG" then
      match env.save_jpeg (env.convert_rgb image) with
      | .error e => .error e
      | .ok image_bytes => env.image_open image_bytes
    else .ok image

/-- Lines 69-86, the body of the `try` block: row access, decode,
normalization, OCR, and on success the dict `{'text': text}` that is
passed to `json.dumps`.  Any step's exception aborts the body. -/
def predict_body (env : Env) (df : DataFrame) :
    Except PyErr (List (String × String)) :=
  match first_image df with
  | .error e => .error e
  | .ok image_bytes =>
    match final_image env image_bytes with
    | .error e => .error e
    | .ok image =>
      match env.image_to_string image with
      | .error e => .error e
      | .ok text => .ok [("text", text)]

/-- Lines 68-88, `OCRModel.predict` at the level of the dict handed to
`json.dumps`: the `try` body's result on success, `{'error': str(e)}`
when any step raised.  The function is total: no exception escapes. -/
def predict (env : Env) (df : DataFrame) : List (String × String) :=
  match predict_body env df with
  | .ok obj => obj
  | .error e => [("error", e.str)]

/-- JSON string escaping for the characters Python's `json.dumps`
escapes in the strings arising here. -/
def json_escape (c : Char) : String :=
  if c = '"' then "\\\""
  else if c = '\\' then "\\\\"
  else if c = '\n' then "\\n"
  else if c = '\t' then "\\t"
  else if c = '\r' then "\\r"
  else c.toString

/-- A JSON string literal. -/
def json_str (s : String) : String :=
  "\"" ++ String.join (s.data.map json_escape) ++ "\""

/-- Python `json.dumps` on a dict of strings. -/
def json_dumps (obj : List (String × String)) : String :=
  "\x7b" ++
    String.intercalate ", "
      (obj.map (fun kv => json_str kv.1 ++ ": " ++ json_str kv.2)) ++
  "\x7d"

/-- The JSON string `predict` actually returns (lines 86 and 88 apply
`json.dumps` to the dict). -/
def predict_str (env : Env) (df : DataFrame) : String :=
  json_dumps (predict env df)

/-- The externally visible steps of the predict path: PIL decode (line 73),
the JPEG-normalization block (lines 77-82), and the OCR invocation
(line 85). -/
inductive Step where
  | decode
  | normalize
  | ocr
deriving DecidableEq, BEq

/-- The sequence of steps `predict` executes on input `df`, in order: each
constructor is recorded when the corresponding source line runs, whether
or not it succeeds.  Mirrors the control flow of lines 69-85. -/
def predict_steps (env : Env) (df : DataFrame) : List Step :=
  match first_image df with
  | .error _ => []
  | .ok image_bytes =>
    Step.decode ::
      match env.image_open image_bytes with
      | .error _ => []
      | .ok image =>
        if image.format ≠ some "JPEG" then
          Step.normalize ::
            match env.save_jpeg (env.convert_rgb image) with
            | .error _ => []
            | .ok image_bytes2 =>
              match env.image_open image_bytes2 with
              | .error _ => []
              | .ok _ => [Step.ocr]
        else [Step.ocr]

/-- How many times `predict` invokes `pytesseract.image_to_string`:
the number of `ocr` steps in its step trace. -/
def ocr_invocations (env : Env) (df : DataFrame) : Nat :=
  (predict_steps env df).count Step.ocr

/-- The model state visible to `OCRModel`: the class declares no instance
attributes, and the only state touched anywhere is the module-level
`pytesseract.pytesseract.tesseract_cmd` set at line 56 and in
`load_context` (line 66). -/
structure OCRState where
  tesseract_cmd : String
deriving DecidableEq

/-- Lines 61-66, `load_context`: points the binding at the installed
binary. -/
def load_context (_st : OCRState) : OCRState :=
  ⟨"/usr/bin/tesseract"⟩

/-- `predict` with the model state threaded through: the method body
(lines 68-88) contains no assignment to `self` or to any global, so the
state passes through unchanged. -/
def predict_st (st : OCRState) (env : Env) (df : DataFrame) :
    List (String × String) × OCRState :=
  (predict env df, st)

/-- Line 133: the three-part registered model name
`f"{catalog}.{schema}.{model_name}"`.  (The concrete strings are read
from the `config` module, which is not part of the sources; the name is
kept parametric.) -/
def registered_model_name (catalog schema model_name : String) : String :=
  catalog ++ "." ++ schema ++ "." ++ model_name

/-- One entry of `served_entities` in the `create_endpoint` config. -/
structure ServedEntity where
  name : String
  entity_name : String
  entity_version : String
  workload_size : String
  scale_to_zero_enabled : Bool
deriving DecidableEq

/-- One entry of `traffic_config.routes`. -/
structure Route where
  served_model_name : String
  traffic_percentage : Nat
deriving DecidableEq

/-- The `traffic_config` dict. -/
structure TrafficConfig where
  routes : List Route
deriving DecidableEq

/-- The `config` dict passed to `create_endpoint`. -/
structure EndpointConfig where
  served_entities : List ServedEntity
  traffic_config : TrafficConfig
deriving DecidableEq

/-- Lines 196-217: the literal configuration passed to
`client.create_endpoint`. -/
def endpoint_config (catalog schema model_name : String) : EndpointConfig :=
  ⟨[⟨model_name, registered_model_name catalog schema model_name, "1",
      "Small", true⟩],
   ⟨[⟨model_name, 100⟩]⟩⟩

/-- The serving step of the notebook: the (name, config) pairs passed to
`client.create_endpoint`.  The notebook makes exactly one such call,
named `model_name` (lines 196-197). -/
def create_endpoint_calls (catalog schema model_name : String) :
    List (String × EndpointConfig) :=
  [(model_name, endpoint_config catalog schema model_name)]

/-- A concrete environment for evaluating the embedding: bytes starting
255, 216 (the JPEG magic) decode as JPEG, bytes starting 137, 80 (the
PNG magic) decode as PNG, everything else fails to decode; OCR reports a
string determined by the pixel content. -/
def testEnv : Env :=
  ⟨fun b =>
      match b with
      | 255 :: 216 :: rest => .ok ⟨some "JPEG", rest.length⟩
      | 137 :: 80 :: rest => .ok ⟨some "PNG", rest.length⟩
      | _ => .error (.exn "cannot identify image file"),
   fun image => ⟨none, image.content⟩,
   fun image => .ok (255 :: 216 :: List.replicate image.content 0),
   fun image => .ok ("hello " ++ toString image.content)⟩

/-- An environment whose OCR result depends on the image format: it
separates OCR of an original PNG image from OCR of its JPEG re-encoding. -/
def formatSensitiveEnv : Env :=
  ⟨fun b =>
      match b with
      | 255 :: 216 :: rest => .ok ⟨some "JPEG", rest.length⟩
      | 137 :: 80 :: rest => .ok ⟨some "PNG", rest.length⟩
      | _ => .error (.exn "cannot identify image file"),
   fun image => ⟨none, image.content⟩,
   fun image => .ok (255 :: 216 :: List.replicate image.content 0),
   fun image =>
      .ok (match image.format with
           | some f => f
           | none => "RAW")⟩

/-- A single-row DataFrame holding a (test) JPEG image. -/
def jpegDf : DataFrame := [("image", [[255, 216, 99]])]

/-- A single-row DataFrame holding a (test) PNG image. -/
def pngDf : DataFrame := [("image", [[137, 80, 0]])]

/-- A single-row DataFrame whose image cell is not decodable. -/
def badDf : DataFrame := [("image", [[0, 1]])]

/-- Regardless of the input and the environment, the dict returned by
`predict` is a one-entry object keyed `text` or keyed `error`. -/
theorem predict_key_shape (env : Env) (df : DataFrame) :
    ∃ v, predict env df = [("text", v)] ∨ predict env df = [("error", v)] := by
  unfold predict predict_body
  rcases h1 : first_image df with e | b
  · exact ⟨e.str, Or.inr (by simp only [h1])⟩
  rcases h2 : final_image env b with e | img
  · exact ⟨e.str, Or.inr (by simp only [h1, h2])⟩
  rcases h3 : env.image_to_string img with e | t
  · exact ⟨e.str, Or.inr (by simp only [h1, h2, h3])⟩
  · exact ⟨t, Or.inl (by simp only [h1, h2, h3])⟩

/-- C1: whenever any step of the predict path raises (unreadable image
bytes, decode failure, OCR failure — any `predict_body` error), `predict`
catches the exception and returns the JSON-encoded object
`{"error": str(e)}` as its ordinary return value; nothing propagates. -/
theorem c1_predict_catches_exceptions (env : Env) (df : DataFrame) (e : PyErr)
    (h : predict_body env df = .error e) :
    predict env df = [("error", e.str)] ∧
    predict_str env df = json_dumps [("error", e.str)] := by
  constructor
  · unfold predict
    rw [h]
  · unfold predict_str predict
    rw [h]

theorem c1_witness :
    predict_body testEnv badDf = .error (.exn "cannot identify image file") ∧
    predict testEnv badDf = [("error", "cannot identify image file")] :=
  ⟨rfl,
   (c1_predict_catches_exceptions testEnv badDf
      (.exn "cannot identify image file") rfl).1⟩

/-- C2: every value returned by `predict` is a JSON object with exactly
one key, which is either `text` or `error`; never both and never
neither. -/
theorem c2_exactly_one_key (env : Env) (df : DataFrame) :
    ∃ v, predict env df = [("text", v)] ∨ predict env df = [("error", v)] :=
  predict_key_shape env df

/-- C3: a single-row input whose image bytes fail to decode yields a
response with an `error` field and no `text` field. -/
theorem c3_undecodable_gives_error (env : Env) (df : DataFrame) (b : Bytes)
    (e : PyErr) (h1 : first_image df = .ok b)
    (h2 : env.image_open b = .error e) :
    predict env df = [("error", e.str)] ∧
    (predict env df).lookup "error" = some e.str ∧
    (predict env df).lookup "text" = none := by
  have hfin : final_image env b = .error e := by
    unfold final_image
    rw [h2]
  have hbody : predict_body env df = .error e := by
    unfold predict_body
    simp only [h1, hfin]
  have hp : predict env df = [("error", e.str)] := by
    unfold predict
    rw [hbody]
  refine ⟨hp, ?_, ?_⟩ <;> rw [hp] <;> rfl

theorem c3_witness :
    predict testEnv badDf = [("error", "cannot identify image file")] ∧
    (predict testEnv badDf).lookup "error" =
      some "cannot identify image file" ∧
    (predict testEnv badDf).lookup "text" = none :=
  c3_undecodable_gives_error testEnv badDf [0, 1]
    (.exn "cannot identify image file") rfl rfl

/-- C4: on a decodable single-row input, predict runs decode, then (only
when the decoded format is not already JPEG) the RGB-convert/JPEG
re-encode normalization, then the OCR invocation, in that order, and
returns the extracted text, or the error string when OCR fails.  JPEG
inputs skip the normalization step entirely. -/
theorem c4_steps_in_order (env : Env) (df : DataFrame) (b : Bytes)
    (img : Image) (h1 : first_image df = .ok b)
    (h2 : env.image_open b = .ok img) :
    (img.format = some "JPEG" →
      predict_steps env df = [Step.decode, Step.ocr] ∧
      (∀ t, env.image_to_string img = .ok t →
        predict env df = [("text", t)]) ∧
      (∀ e, env.image_to_string img = .error e →
        predict env df = [("error", e.str)])) ∧
    (img.format ≠ some "JPEG" →
      ∀ b2 img2, env.save_jpeg (env.convert_rgb img) = .ok b2 →
        env.image_open b2 = .ok img2 →
        predict_steps env df = [Step.decode, Step.normalize, Step.ocr] ∧
        (∀ t, env.image_to_string img2 = .ok t →
          predict env df = [("text", t)]) ∧
        (∀ e, env.image_to_string img2 = .error e →
          predict env df = [("error", e.str)])) := by
  constructor
  · intro hfmt
    have hfin : final_image env b = .ok img := by
      unfold final_image
      simp [h2, hfmt]
    refine ⟨?_, ?_, ?_⟩
    · unfold predict_steps
      simp [h1, h2, hfmt]
    · intro t h3
      unfold predict predict_body
      simp only [h1, hfin, h3]
    · intro e h3
      unfold predict predict_body
      simp only [h1, hfin, h3]
  · intro hfmt b2 img2 hsave hopen2
    have hfin : final_image env b = .ok img2 := by
      unfold final_image
      simp [h2, hfmt, hsave, hopen2]
    refine ⟨?_, ?_, ?_⟩
    · unfold predict_steps
      simp [h1, h2, hfmt, hsave, hopen2]
    · intro t h3
      unfold predict predict_body
      simp only [h1, hfin, h3]
    · intro e h3
      unfold predict predict_body
      simp only [h1, hfin, h3]

theorem c4_witness :
    predict_steps testEnv jpegDf = [Step.decode, Step.ocr] ∧
    predict testEnv jpegDf = [("text", "hello 1")] ∧
    predict_steps testEnv pngDf = [Step.decode, Step.normalize, Step.ocr] ∧
    predict testEnv pngDf = [("text", "hello 1")] := by
  have hj := c4_steps_in_order testEnv jpegDf [255, 216, 99]
    ⟨some "JPEG", 1⟩ rfl rfl
  have hp := c4_steps_in_order testEnv pngDf [137, 80, 0]
    ⟨some "PNG", 1⟩ rfl rfl
  have hj2 := hj.1 rfl
  have hp2 := hp.2 (by decide) [255, 216, 0] ⟨some "JPEG", 1⟩ rfl rfl
  exact ⟨hj2.1, hj2.2.1 "hello 1" rfl, hp2.1, hp2.2.1 "hello 1" rfl⟩

/-- C5 as stated is false of the code: the normalizing path hands OCR the
re-encoded image, and an OCR function may extract different text from the
re-encoded image than from the original.  A concrete environment whose
OCR output depends on the image format separates the two paths. -/
theorem c5_counterexample :
    ¬ (∀ (env : Env) (df : DataFrame) (b : Bytes) (img : Image) (t : String),
        first_image df = .ok b → env.image_open b = .ok img →
        img.format ≠ some "JPEG" → env.image_to_string img = .ok t →
        predict env df = [("text", t)]) := by
  intro h
  have hc := h formatSensitiveEnv pngDf [137, 80, 0] ⟨some "PNG", 1⟩ "PNG"
    rfl rfl (by decide) rfl
  have hp : predict formatSensitiveEnv pngDf = [("text", "JPEG")] := rfl
  rw [hp] at hc
  exact absurd hc (by decide)

/-- C5 amended: on a decodable non-JPEG input the text predict extracts
is the text OCR extracts from the RGB-converted, JPEG-re-encoded,
reopened image — which coincides with the direct-path text exactly when
the OCR function returns the same result on the two images. -/
theorem c5_normalized_path_ocr (env : Env) (df : DataFrame) (b : Bytes)
    (img : Image) (b2 : Bytes) (img2 : Image) (t : String)
    (h1 : first_image df = .ok b) (h2 : env.image_open b = .ok img)
    (hfmt : img.format ≠ some "JPEG")
    (h3 : env.save_jpeg (env.convert_rgb img) = .ok b2)
    (h4 : env.image_open b2 = .ok img2)
    (h5 : env.image_to_string img2 = .ok t) :
    predict env df = [("text", t)] ∧
    (env.image_to_string img = env.image_to_string img2 →
      ∀ s, env.image_to_string img = .ok s →
        predict env df = [("text", s)]) := by
  have hfin : final_image env b = .ok img2 := by
    unfold final_image
    simp [h2, hfmt, h3, h4]
  have hpred : predict env df = [("text", t)] := by
    unfold predict predict_body
    simp only [h1, hfin, h5]
  refine ⟨hpred, fun heq s hs => ?_⟩
  have : Except.ok (ε := PyErr) s = .ok t := by
    rw [← hs, heq, h5]
  rw [Except.ok.injEq] at this
  rw [hpred, this]

theorem c5_witness :
    predict testEnv pngDf = [("text", "hello 1")] :=
  (c5_normalized_path_ocr testEnv pngDf [137, 80, 0] ⟨some "PNG", 1⟩
    [255, 216, 0] ⟨some "JPEG", 1⟩ "hello 1" rfl rfl (by decide)
    rfl rfl rfl).1

/-- Whether `needle` occurs at the head of `hay`. -/
def substr_at (needle hay : List Char) : Bool :=
  match needle, hay with
  | [], _ => true
  | _ :: _, [] => false
  | c :: cs, d :: ds => c == d && substr_at cs ds

/-- Whether `needle` occurs anywhere in `hay`. -/
def has_sub (needle : List Char) : List Char → Bool
  | [] => substr_at needle []
  | d :: ds => substr_at needle (d :: ds) || has_sub needle ds

/-- Whether the string `needle` occurs in the string `hay`. -/
def str_contains (hay needle : String) : Bool :=
  has_sub needle.data hay.data

/-- C6: on a valid single-row JPEG input whose OCR output contains the
known text, the response has a `text` field and that field's value
contains the known text — predict returns the OCR output verbatim. -/
theorem c6_jpeg_known_text (env : Env) (df : DataFrame) (b : Bytes)
    (img : Image) (t known : String)
    (h1 : first_image df = .ok b) (h2 : env.image_open b = .ok img)
    (hfmt : img.format = some "JPEG")
    (h3 : env.image_to_string img = .ok t)
    (h4 : str_contains t known = true) :
    predict env df = [("text", t)] ∧
    ∃ v, (predict env df).lookup "text" = some v ∧
      str_contains v known = true := by
  have hfin : final_image env b = .ok img := by
    unfold final_image
    simp [h2, hfmt]
  have hpred : predict env df = [("text", t)] := by
    unfold predict predict_body
    simp only [h1, hfin, h3]
  refine ⟨hpred, t, ?_, h4⟩
  rw [hpred]
  rfl

theorem c6_witness :
    predict testEnv jpegDf = [("text", "hello 1")] ∧
    str_contains "hello 1" "hello" = true :=
  ⟨(c6_jpeg_known_text testEnv jpegDf [255, 216, 99] ⟨some "JPEG", 1⟩
      "hello 1" "hello" rfl rfl rfl rfl rfl).1, rfl⟩

/-- C7: the serving step makes exactly one `create_endpoint` call, whose
config serves exactly one entity — the registered model
`catalog.schema.model_name` at version "1" — and routes 100% of traffic
to it through a single route; no other served entity or route appears. -/
theorem c7_single_entity_full_traffic (catalog schema model_name : String) :
    (create_endpoint_calls catalog schema model_name).length = 1 ∧
    create_endpoint_calls catalog schema model_name =
      [(model_name, endpoint_config catalog schema model_name)] ∧
    (endpoint_config catalog schema model_name).served_entities =
      [⟨model_name, registered_model_name catalog schema model_name,
        "1", "Small", true⟩] ∧
    (endpoint_config catalog schema model_name).traffic_config.routes =
      [⟨model_name, 100⟩] :=
  ⟨rfl, rfl, rfl, rfl⟩

/-- C8: predict threads the model state through unchanged (its body
assigns no attribute and no global), its result is exactly the stateless
`predict`, and it invokes the OCR binding at most once — there is no
retry and no internal state machine. -/
theorem c8_stateless_single_ocr_call (st : OCRState) (env : Env)
    (df : DataFrame) :
    (predict_st st env df).2 = st ∧
    (predict_st st env df).1 = predict env df ∧
    ocr_invocations env df ≤ 1 := by
  refine ⟨rfl, rfl, ?_⟩
  unfold ocr_invocations predict_steps
  repeat' split
  all_goals decide

/-- C9: predict reads only the first row of the `image` column — two
inputs agreeing on that value produce the same result, no matter what
further rows or columns either contains. -/
theorem c9_only_first_row_matters (env : Env) (df1 df2 : DataFrame)
    (b : Bytes) (h1 : first_image df1 = .ok b)
    (h2 : first_image df2 = .ok b) :
    predict env df1 = predict env df2 := by
  unfold predict predict_body
  simp only [h1, h2]

/-- A DataFrame with the same first `image` row as `jpegDf` but an extra
row and an extra column. -/
def multiRowDf : DataFrame :=
  [("image", [[255, 216, 99], [1, 2, 3]]), ("other", [[5]])]

theorem c9_witness :
    predict testEnv jpegDf = predict testEnv multiRowDf :=
  c9_only_first_row_matters testEnv jpegDf multiRowDf [255, 216, 99] rfl rfl

/-- C10: predict is total — every input, however malformed, yields a
one-key JSON object; in particular a table without an `image` column
fails inside the `try` with a `KeyError` and a table with an empty
`image` column fails with an `IndexError`, both returned as `error`
objects rather than raised. -/
theorem c10_total_on_malformed_input (env : Env) (df : DataFrame) :
    (∃ v, predict env df = [("text", v)] ∨
      predict env df = [("error", v)]) ∧
    (df.lookup "image" = none →
      predict env df = [("error", PyErr.str (.keyError "image"))]) ∧
    (∀ col, df.lookup "image" = some col → col = [] →
      predict env df = [("error", PyErr.str .indexError)]) := by
  refine ⟨predict_key_shape env df, ?_, ?_⟩
  · intro h
    have hfi : first_image df = .error (.keyError "image") := by
      unfold first_image df_getcol
      simp only [h]
    unfold predict predict_body
    simp only [hfi]
  · intro col h hcol
    have hfi : first_image df = .error .indexError := by
      unfold first_image df_getcol
      simp only [h, hcol, iloc0]
    unfold predict predict_body
    simp only [hfi]

theorem c10_witness :
    predict testEnv [] = [("error", "image")] ∧
    predict testEnv [("image", ([] : List Bytes))] =
      [("error", "single positional indexer is out-of-bounds")] :=
  ⟨(c10_total_on_malformed_input testEnv []).2.1 rfl,
   (c10_total_on_malformed_input testEnv
      [("image", ([] : List Bytes))]).2.2 [] rfl rfl⟩

end OCRDeploy
